import Mathlib

/-!
Verification of the entertainment-mcp core.

Shallow embedding of the core of the `entertainment-mcp` repository:
the OMDB reconciler (`OmdbService` in the OMDB service module) and the
TMDB query facade / enrichment pipeline (`TmdbService` in
`src/services/tmdb-service.ts`), together with proofs about the
normalization, caching, retry and error-handling behaviour.

Modelling conventions:
* Network calls (`fetchJson`) are modelled as oracle functions returning
  `Except Unit payload`; `.error ()` is a transport/schema failure and
  `.ok data` a validated payload.  The transport's internal retry/backoff
  is outside the core and is absorbed into the oracle.
* JS `string | null` and optional fields are modelled as `Option String`;
  `x ?? d` becomes `x.getD d`.  Fields that are both nullable and optional
  are collapsed to a single `Option` because every use site coalesces
  `null` and `undefined` identically with `??` / `?.`.
* JSON numbers are modelled as `Rat` where fractional values occur
  (`vote_average`) and as `Int` for identifiers, counters and priorities.
* The in-memory caches (JS `Map`) are association lists with
  `List.lookup`; `Map.set` is modelled by consing the new binding
  (later bindings shadow earlier ones under `lookup`).
* Stateful methods return a structure holding the produced value, the
  cache after the call, and the list of network requests issued, so that
  cache evolution and network traffic are provable facts.
-/

/-! ## OMDB reconciler (`OmdbService`) -/

/-- One entry of the OMDB `Ratings` array (`z.object` with `Source`, `Value`). -/
structure OmdbRatingEntry where
  Source : String
  Value : String
deriving DecidableEq

/-- The OMDB API response shape (`omdbMovieSchema`).  Every field except
`Response` is optional in the schema; `Response` is required. -/
structure OmdbApiResponse where
  Title : Option String := none
  Year : Option String := none
  Rated : Option String := none
  Released : Option String := none
  Runtime : Option String := none
  Genre : Option String := none
  Director : Option String := none
  Writer : Option String := none
  Actors : Option String := none
  Plot : Option String := none
  Language : Option String := none
  Country : Option String := none
  Awards : Option String := none
  Poster : Option String := none
  Ratings : Option (List OmdbRatingEntry) := none
  Metascore : Option String := none
  imdbRating : Option String := none
  imdbVotes : Option String := none
  imdbID : Option String := none
  Type' : Option String := none
  Response : String
  Error : Option String := none
deriving DecidableEq

/-- The normalized OMDB item (`OmdbItem` interface): every field is a
plain string, never absent. -/
structure OmdbItem where
  title : String
  year : String
  rating : String
  votes : String
  metascore : String
  released : String
  genre : String
  director : String
  writer : String
  actors : String
  plot : String
  posterUrl : String
  country : String
  language : String
  type : String
deriving DecidableEq

/-- The media-kind parameter of `getByTitle` (`"movie" | "series" | "tv"`). -/
inductive OmdbKind where
  | movie
  | series
  | tv
deriving DecidableEq

/-- The string form of an `OmdbKind`, as used in the `type` query
parameter and in the cache key. -/
def OmdbKind.str : OmdbKind → String
  | .movie => "movie"
  | .series => "series"
  | .tv => "tv"

/-- JS `String.prototype.includes`: substring test, modelled as an infix
test on the character lists. -/
def strIncludes (s sub : String) : Bool :=
  decide (sub.data <:+: s.data)

/-- A by-title OMDB request: the `t` query parameter and the optional
`type` parameter. -/
structure OmdbRequest where
  title : String
  type : Option OmdbKind
deriving DecidableEq

/-- The in-memory cache of `OmdbService` (`private cache = new Map<string, OmdbItem>()`),
modelled as an association list where consing shadows. -/
abbrev OmdbCache := List (String × OmdbItem)

/-- The cache key built by `getByTitle`:
`` `title:$\x7btype ?? "auto"\x7d:$\x7btitle.toLowerCase()\x7d` ``. -/
def titleCacheKey (title : String) (type : Option OmdbKind) : String :=
  "title:" ++ (match type with | some k => k.str | none => "auto") ++ ":" ++ title.toLower

/-- The cache key built by `getByImdbId`: `` `id:$\x7bimdbId\x7d` ``. -/
def idCacheKey (imdbId : String) : String :=
  "id:" ++ imdbId

/-- Outcome of a by-title lookup: the returned value (`null` is `none`),
the cache after the call, and the requests issued to the network. -/
structure OmdbTitleResult where
  result : Option OmdbItem
  cache : OmdbCache
  reqs : List OmdbRequest
deriving DecidableEq

/-- Outcome of a by-id lookup; requests are the `i` parameters fetched. -/
structure OmdbIdResult where
  result : Option OmdbItem
  cache : OmdbCache
  reqs : List String
deriving DecidableEq

/-- `OmdbService.normalize`: maps a validated OMDB payload to the
normalized `OmdbItem`, substituting a documented default for every
absent field.  `data.Poster && data.Poster !== "N/A" ? data.Poster : ""`
is modelled with JS string truthiness (the empty string is falsy). -/
def OmdbService.normalize (data : OmdbApiResponse) : OmdbItem :=
  { title := data.Title.getD "Unknown"
    year := data.Year.getD "Unknown"
    rating := data.imdbRating.getD "N/A"
    votes := data.imdbVotes.getD "N/A"
    metascore := data.Metascore.getD "N/A"
    released := data.Released.getD "Unknown"
    genre := data.Genre.getD "Unknown"
    director := data.Director.getD "Unknown"
    writer := data.Writer.getD "Unknown"
    actors := data.Actors.getD "Unknown"
    plot := data.Plot.getD "No plot available."
    posterUrl :=
      match data.Poster with
      | some p => if p = "" then "" else if p = "N/A" then "" else p
      | none => ""
    country := data.Country.getD "Unknown"
    language := data.Language.getD "Unknown"
    type := data.Type'.getD "movie" }

/-- `OmdbService.getByTitle`: cache lookup, network fetch, not-found
retry with a guessed type (`data.Error?.includes("Series") ? "series" : "movie"`),
cache insertion on success, and transport failures caught to `null`.
The API-key precondition check (`validateApiKey`) is assumed satisfied. -/
def OmdbService.getByTitle (fetch : OmdbRequest → Except Unit OmdbApiResponse)
    (cache : OmdbCache) (title : String) (type : Option OmdbKind) : OmdbTitleResult :=
  let cacheKey := titleCacheKey title type
  match cache.lookup cacheKey with
  | some item => ⟨some item, cache, []⟩
  | none =>
    let req : OmdbRequest := ⟨title, type⟩
    match fetch req with
    | .error _ => ⟨none, cache, [req]⟩
    | .ok data =>
      if data.Response = "False" then
        match type with
        | none =>
          let altType :=
            if strIncludes (data.Error.getD "") "Series" then OmdbKind.series
            else OmdbKind.movie
          let retry := OmdbService.getByTitle fetch cache title (some altType)
          ⟨retry.result, retry.cache, req :: retry.reqs⟩
        | some _ => ⟨none, cache, [req]⟩
      else
        let item := OmdbService.normalize data
        ⟨some item, (cacheKey, item) :: cache, [req]⟩
termination_by type.elim 1 fun _ => 0
decreasing_by simp [Option.elim]

/-- `OmdbService.getByImdbId`: cache lookup, network fetch by `i`
parameter, cache insertion on success, transport failures caught to
`null`. -/
def OmdbService.getByImdbId (fetch : String → Except Unit OmdbApiResponse)
    (cache : OmdbCache) (imdbId : String) : OmdbIdResult :=
  let cacheKey := idCacheKey imdbId
  match cache.lookup cacheKey with
  | some item => ⟨some item, cache, []⟩
  | none =>
    match fetch imdbId with
    | .error _ => ⟨none, cache, [imdbId]⟩
    | .ok data =>
      if data.Response = "False" then ⟨none, cache, [imdbId]⟩
      else
        let item := OmdbService.normalize data
        ⟨some item, (cacheKey, item) :: cache, [imdbId]⟩

/-! ## TMDB query facade (`TmdbService`, `src/services/tmdb-service.ts`) -/

/-- The `mediaType` discriminator of the facade operations. -/
inductive MediaType where
  | movie
  | tv
deriving DecidableEq

/-- The `media_type` tag of trending results (`z.enum(["movie", "tv", "person"])`). -/
inductive TrendingMediaType where
  | movie
  | tv
  | person
deriving DecidableEq

/-- `tmdbWatchProviderDetailsSchema`. -/
structure TmdbWatchProviderDetails where
  display_priority : Int
  logo_path : String
  provider_name : String
  provider_id : Int
deriving DecidableEq

/-- `tmdbWatchProvidersSchema`: per-region offer lists, each optional. -/
structure TmdbWatchProviders where
  link : String
  flatrate : Option (List TmdbWatchProviderDetails) := none
  rent : Option (List TmdbWatchProviderDetails) := none
  buy : Option (List TmdbWatchProviderDetails) := none
  ads : Option (List TmdbWatchProviderDetails) := none
  free : Option (List TmdbWatchProviderDetails) := none
deriving DecidableEq

/-- `tmdbWatchProvidersResponseSchema`: `results` is an optional record
from region code to providers, modelled as an association list. -/
structure TmdbWatchProvidersResponse where
  id : Int
  results : Option (List (String × TmdbWatchProviders)) := none
deriving DecidableEq

/-- One element of `tmdbMovieSchema`'s `results` array. -/
structure TmdbMovieResult where
  id : Int
  imdb_id : Option String := none
  title : String
  overview : Option String
  release_date : Option String
  vote_average : Option Rat
  poster_path : Option String
  original_language : Option String
deriving DecidableEq

/-- `tmdbMovieSchema`. -/
structure TmdbMovieResponse where
  page : Int
  results : List TmdbMovieResult
  total_results : Int
  total_pages : Int
deriving DecidableEq

/-- One element of `tmdbTvSchema`'s `results` array. -/
structure TmdbTvResult where
  id : Int
  imdb_id : Option String := none
  name : String
  overview : Option String
  first_air_date : Option String
  vote_average : Option Rat
  poster_path : Option String
  original_language : Option String
deriving DecidableEq

/-- `tmdbTvSchema`. -/
structure TmdbTvResponse where
  page : Int
  results : List TmdbTvResult
  total_results : Int
  total_pages : Int
deriving DecidableEq

/-- `tmdbMovieDetailsSchema` (external id only). -/
structure TmdbMovieDetails where
  imdb_id : Option String := none
deriving DecidableEq

/-- The `external_ids` sub-object of `tmdbTvDetailsSchema`. -/
structure TmdbExternalIds where
  imdb_id : Option String := none
deriving DecidableEq

/-- `tmdbTvDetailsSchema`: external id nested under an optional/nullable
`external_ids` sub-object. -/
structure TmdbTvDetails where
  external_ids : Option TmdbExternalIds := none
deriving DecidableEq

/-- `tmdbTrendingItemSchema`: movie and TV fields coexist optionally,
discriminated by `media_type`. -/
structure TmdbTrendingItem where
  id : Int
  title : Option String := none
  name : Option String := none
  overview : Option String
  release_date : Option String := none
  first_air_date : Option String := none
  vote_average : Option Rat
  poster_path : Option String
  original_language : Option String
  media_type : TrendingMediaType
deriving DecidableEq

/-- `tmdbTrendingResponseSchema`. -/
structure TmdbTrendingResponse where
  page : Int
  results : List TmdbTrendingItem
  total_pages : Int
  total_results : Int
deriving DecidableEq

/-- Element shape shared verbatim by the `results` entries of
`tmdbPopularMovieSchema` and `tmdbDiscoverMovieSchema` (the two zod
schemas declare identical field sets). -/
structure TmdbMovieListResult where
  id : Int
  title : String
  overview : Option String
  release_date : Option String
  vote_average : Option Rat
  poster_path : Option String
  original_language : Option String
deriving DecidableEq

/-- Element shape shared verbatim by the `results` entries of
`tmdbPopularTvSchema` and `tmdbDiscoverTvSchema`. -/
structure TmdbTvListResult where
  id : Int
  name : String
  overview : Option String
  first_air_date : Option String
  vote_average : Option Rat
  poster_path : Option String
  original_language : Option String
deriving DecidableEq

/-- Response shape of `tmdbPopularMovieSchema` / `tmdbDiscoverMovieSchema`. -/
structure TmdbMovieListResponse where
  page : Int
  results : List TmdbMovieListResult
  total_results : Int
  total_pages : Int
deriving DecidableEq

/-- Response shape of `tmdbPopularTvSchema` / `tmdbDiscoverTvSchema`. -/
structure TmdbTvListResponse where
  page : Int
  results : List TmdbTvListResult
  total_results : Int
  total_pages : Int
deriving DecidableEq

/-- One constituent part in `tmdbCollectionDetailsSchema`. -/
structure TmdbCollectionPart where
  id : Int
  title : String
  release_date : Option String
  poster_path : Option String
  backdrop_path : Option String
  overview : Option String
  vote_average : Option Rat
deriving DecidableEq

/-- `tmdbCollectionDetailsSchema`. -/
structure TmdbCollectionDetailsResponse where
  id : Int
  name : String
  overview : Option String
  poster_path : Option String
  backdrop_path : Option String
  parts : List TmdbCollectionPart
deriving DecidableEq

/-- The canonical `TmdbItem` interface: `imdbId` is `string | null`,
`releaseDate` is `string | null`, `watchProviders` is optional (`none`
covers both the absent field and an absent upstream `results`). -/
structure TmdbItem where
  id : Int
  imdbId : Option String
  title : String
  description : String
  releaseDate : Option String
  rating : Rat
  posterUrl : String
  language : String
  type : MediaType
  watchProviders : Option (List (String × TmdbWatchProviders)) := none
deriving DecidableEq

/-- One simplified part inside the canonical `TmdbCollection`. -/
structure TmdbCollectionPartItem where
  id : Int
  title : String
  releaseDate : String
  posterUrl : String
  description : String
  rating : Rat
deriving DecidableEq

/-- The canonical `TmdbCollection` interface. -/
structure TmdbCollection where
  id : Int
  name : String
  overview : String
  posterUrl : String
  backdropUrl : String
  parts : List TmdbCollectionPartItem
deriving DecidableEq

/-- The poster/backdrop URL ternary repeated at every call site:
`path ? "https://image.tmdb.org/t/p/w500" + path : ""`, with JS string
truthiness (the empty string is falsy). -/
def imageUrlOf (path : Option String) : String :=
  match path with
  | some p => if p = "" then "" else "https://image.tmdb.org/t/p/w500" ++ p
  | none => ""

/-- `TmdbService.getWatchProviders`: fetches the watch/providers
endpoint and returns `data.results`; every error is caught and becomes
`undefined` (`none`), never a rejection. -/
def TmdbService.getWatchProviders
    (wpFetch : MediaType → Int → Except Unit TmdbWatchProvidersResponse)
    (mediaType : MediaType) (id : Int) :
    Option (List (String × TmdbWatchProviders)) :=
  match wpFetch mediaType id with
  | .ok data => data.results
  | .error _ => none

/-- The per-item mapping of `getMovieByTitle`'s second `Promise.all`:
the search result already carries the fetched `imdb_id` (the TS spread
`...movie` with the replaced field); `imdbId := movie.imdb_id ?? null`
collapses to the field itself under the `Option` model. -/
def movieTitleItem (wpFetch : MediaType → Int → Except Unit TmdbWatchProvidersResponse)
    (movie : TmdbMovieResult) : TmdbItem :=
  { id := movie.id
    imdbId := movie.imdb_id
    title := movie.title
    description := movie.overview.getD "No description available."
    releaseDate := some (movie.release_date.getD "Unknown")
    rating := movie.vote_average.getD 0
    posterUrl := imageUrlOf movie.poster_path
    language := movie.original_language.getD "Unknown"
    type := MediaType.movie
    watchProviders := TmdbService.getWatchProviders wpFetch MediaType.movie movie.id }

/-- The per-item mapping of `getTvShowByTitle`'s second `Promise.all`. -/
def tvTitleItem (wpFetch : MediaType → Int → Except Unit TmdbWatchProvidersResponse)
    (tvshow : TmdbTvResult) : TmdbItem :=
  { id := tvshow.id
    imdbId := tvshow.imdb_id
    title := tvshow.name
    description := tvshow.overview.getD "No description available."
    releaseDate := some (tvshow.first_air_date.getD "Unknown")
    rating := tvshow.vote_average.getD 0
    posterUrl := imageUrlOf tvshow.poster_path
    language := tvshow.original_language.getD "Unknown"
    type := MediaType.tv
    watchProviders := TmdbService.getWatchProviders wpFetch MediaType.tv tvshow.id }

/-- The per-item mapping of `getTrending`'s second `Promise.all`; `imdb`
is the external id fetched in the first `Promise.all` (`undefined` for
`person` entries).  `title ?? name ?? "Unknown"` and
`release_date ?? first_air_date ?? "Unknown"` are the trending fallback
chains; `media_type === "movie" ? "movie" : "tv"` sends `person` to `tv`. -/
def trendingItem (wpFetch : MediaType → Int → Except Unit TmdbWatchProvidersResponse)
    (imdb : Option String) (item : TmdbTrendingItem) : TmdbItem :=
  { id := item.id
    imdbId := imdb
    title := item.title.getD (item.name.getD "Unknown")
    description := item.overview.getD "No description available."
    releaseDate := some (item.release_date.getD (item.first_air_date.getD "Unknown"))
    rating := item.vote_average.getD 0
    posterUrl := imageUrlOf item.poster_path
    language := item.original_language.getD "Unknown"
    type := if item.media_type = TrendingMediaType.movie then MediaType.movie else MediaType.tv
    watchProviders :=
      TmdbService.getWatchProviders wpFetch
        (if item.media_type = TrendingMediaType.movie then MediaType.movie else MediaType.tv)
        item.id }

/-- The `mediaType === "movie"` branch of `getPopular`'s final mapping
(`title` and `release_date` are non-optional in the movie schema, so the
`?? "Unknown"` on the casted union never fires for the title). -/
def popularMovieItem (wpFetch : MediaType → Int → Except Unit TmdbWatchProvidersResponse)
    (imdb : Option String) (item : TmdbMovieListResult) : TmdbItem :=
  { id := item.id
    imdbId := imdb
    title := item.title
    description := item.overview.getD "No description available."
    releaseDate := some (item.release_date.getD "Unknown")
    rating := item.vote_average.getD 0
    posterUrl := imageUrlOf item.poster_path
    language := item.original_language.getD "Unknown"
    type := MediaType.movie
    watchProviders := TmdbService.getWatchProviders wpFetch MediaType.movie item.id }

/-- The `tv` branch of `getPopular`'s final mapping. -/
def popularTvItem (wpFetch : MediaType → Int → Except Unit TmdbWatchProvidersResponse)
    (imdb : Option String) (item : TmdbTvListResult) : TmdbItem :=
  { id := item.id
    imdbId := imdb
    title := item.name
    description := item.overview.getD "No description available."
    releaseDate := some (item.first_air_date.getD "Unknown")
    rating := item.vote_average.getD 0
    posterUrl := imageUrlOf item.poster_path
    language := item.original_language.getD "Unknown"
    type := MediaType.tv
    watchProviders := TmdbService.getWatchProviders wpFetch MediaType.tv item.id }

/-- The `movie` branch of `discoverByActor`'s final mapping. -/
def discoverByActorMovieItem (wpFetch : MediaType → Int → Except Unit TmdbWatchProvidersResponse)
    (imdb : Option String) (item : TmdbMovieListResult) : TmdbItem :=
  { id := item.id
    imdbId := imdb
    title := item.title
    description := item.overview.getD "No description available."
    releaseDate := some (item.release_date.getD "Unknown")
    rating := item.vote_average.getD 0
    posterUrl := imageUrlOf item.poster_path
    language := item.original_language.getD "Unknown"
    type := MediaType.movie
    watchProviders := TmdbService.getWatchProviders wpFetch MediaType.movie item.id }

/-- The `tv` branch of `discoverByActor`'s final mapping. -/
def discoverByActorTvItem (wpFetch : MediaType → Int → Except Unit TmdbWatchProvidersResponse)
    (imdb : Option String) (item : TmdbTvListResult) : TmdbItem :=
  { id := item.id
    imdbId := imdb
    title := item.name
    description := item.overview.getD "No description available."
    releaseDate := some (item.first_air_date.getD "Unknown")
    rating := item.vote_average.getD 0
    posterUrl := imageUrlOf item.poster_path
    language := item.original_language.getD "Unknown"
    type := MediaType.tv
    watchProviders := TmdbService.getWatchProviders wpFetch MediaType.tv item.id }

/-- The `movie` branch of `discoverByGenre`'s final mapping.  Unlike the
other operations, `releaseDate` here is the raw
`(item as ...).release_date` with NO `?? "Unknown"` fallback, so a null
provider date stays null; the mapping also sets no `watchProviders`. -/
def discoverByGenreMovieItem (imdb : Option String) (item : TmdbMovieListResult) : TmdbItem :=
  { id := item.id
    imdbId := imdb
    title := item.title
    description := item.overview.getD "No description available."
    releaseDate := item.release_date
    rating := item.vote_average.getD 0
    posterUrl := imageUrlOf item.poster_path
    language := item.original_language.getD "Unknown"
    type := MediaType.movie
    watchProviders := none }

/-- The `tv` branch of `discoverByGenre`'s final mapping:
`first_air_date ?? "Unknown"`, no `watchProviders`. -/
def discoverByGenreTvItem (imdb : Option String) (item : TmdbTvListResult) : TmdbItem :=
  { id := item.id
    imdbId := imdb
    title := item.name
    description := item.overview.getD "No description available."
    releaseDate := some (item.first_air_date.getD "Unknown")
    rating := item.vote_average.getD 0
    posterUrl := imageUrlOf item.poster_path
    language := item.original_language.getD "Unknown"
    type := MediaType.tv
    watchProviders := none }

/-- The per-part mapping inside `getCollectionDetails`. -/
def collectionPartItem (movie : TmdbCollectionPart) : TmdbCollectionPartItem :=
  { id := movie.id
    title := movie.title
    releaseDate := movie.release_date.getD "Unknown"
    posterUrl := imageUrlOf movie.poster_path
    description := movie.overview.getD "No description available."
    rating := movie.vote_average.getD 0 }

/-- The success-branch mapping of `getCollectionDetails`. -/
def collectionOf (data : TmdbCollectionDetailsResponse) : TmdbCollection :=
  { id := data.id
    name := data.name
    overview := data.overview.getD "No overview available."
    posterUrl := imageUrlOf data.poster_path
    backdropUrl := imageUrlOf data.backdrop_path
    parts := data.parts.map collectionPartItem }

/-- The `external_ids?.imdb_id` optional chain used for TV details. -/
def tvImdbId (d : TmdbTvDetails) : Option String :=
  match d.external_ids with
  | some e => e.imdb_id
  | none => none

/-- `TmdbService.getMovieByTitle`: primary search, a `Promise.all` of
per-result detail fetches (any rejection rejects the whole batch), then
the enrichment mapping; the second `Promise.all` only awaits
`getWatchProviders`, which never rejects, so it is a pure map. -/
def TmdbService.getMovieByTitle
    (search : Except Unit TmdbMovieResponse)
    (details : Int → Except Unit TmdbMovieDetails)
    (wpFetch : MediaType → Int → Except Unit TmdbWatchProvidersResponse) :
    Except Unit (List TmdbItem) := do
  let data ← search
  let moviesWithImdbId ← data.results.mapM fun movie => do
    let movieDetails ← details movie.id
    pure { movie with imdb_id := movieDetails.imdb_id }
  pure (moviesWithImdbId.map (movieTitleItem wpFetch))

/-- `TmdbService.getTvShowByTitle`. -/
def TmdbService.getTvShowByTitle
    (search : Except Unit TmdbTvResponse)
    (details : Int → Except Unit TmdbTvDetails)
    (wpFetch : MediaType → Int → Except Unit TmdbWatchProvidersResponse) :
    Except Unit (List TmdbItem) := do
  let data ← search
  let tvShowsWithImdbId ← data.results.mapM fun tvshow => do
    let tvDetails ← details tvshow.id
    pure { tvshow with imdb_id := tvImdbId tvDetails }
  pure (tvShowsWithImdbId.map (tvTitleItem wpFetch))

/-- `TmdbService.getTrending`: the first `Promise.all` branches on
`media_type` (movie details, tv details, or no fetch for `person`); the
enriched pair `(item, imdb_id)` models the TS spread `...item` with the
added field. -/
def TmdbService.getTrending
    (fetchTrending : Except Unit TmdbTrendingResponse)
    (movieDetails : Int → Except Unit TmdbMovieDetails)
    (tvDetails : Int → Except Unit TmdbTvDetails)
    (wpFetch : MediaType → Int → Except Unit TmdbWatchProvidersResponse) :
    Except Unit (List TmdbItem) := do
  let data ← fetchTrending
  let trendingItemsWithImdbId ← data.results.mapM fun item =>
    match item.media_type with
    | .movie => do
        let d ← movieDetails item.id
        pure (item, d.imdb_id)
    | .tv => do
        let d ← tvDetails item.id
        pure (item, tvImdbId d)
    | .person => pure (item, none)
  pure (trendingItemsWithImdbId.map fun p => trendingItem wpFetch p.2 p.1)

/-- `TmdbService.getPopular`: branches on `mediaType` for both the
primary fetch/schema and the detail fetch. -/
def TmdbService.getPopular (mediaType : MediaType)
    (fetchMovie : Except Unit TmdbMovieListResponse)
    (fetchTv : Except Unit TmdbTvListResponse)
    (movieDetails : Int → Except Unit TmdbMovieDetails)
    (tvDetails : Int → Except Unit TmdbTvDetails)
    (wpFetch : MediaType → Int → Except Unit TmdbWatchProvidersResponse) :
    Except Unit (List TmdbItem) :=
  match mediaType with
  | .movie => do
      let data ← fetchMovie
      let withIds ← data.results.mapM fun item => do
        let d ← movieDetails item.id
        pure (item, d.imdb_id)
      pure (withIds.map fun p => popularMovieItem wpFetch p.2 p.1)
  | .tv => do
      let data ← fetchTv
      let withIds ← data.results.mapM fun item => do
        let d ← tvDetails item.id
        pure (item, tvImdbId d)
      pure (withIds.map fun p => popularTvItem wpFetch p.2 p.1)

/-- `TmdbService.discoverByActor`: same two-stage pipeline as
`getPopular`, over the discover schemas. -/
def TmdbService.discoverByActor (mediaType : MediaType)
    (fetchMovie : Except Unit TmdbMovieListResponse)
    (fetchTv : Except Unit TmdbTvListResponse)
    (movieDetails : Int → Except Unit TmdbMovieDetails)
    (tvDetails : Int → Except Unit TmdbTvDetails)
    (wpFetch : MediaType → Int → Except Unit TmdbWatchProvidersResponse) :
    Except Unit (List TmdbItem) :=
  match mediaType with
  | .movie => do
      let data ← fetchMovie
      let withIds ← data.results.mapM fun item => do
        let d ← movieDetails item.id
        pure (item, d.imdb_id)
      pure (withIds.map fun p => discoverByActorMovieItem wpFetch p.2 p.1)
  | .tv => do
      let data ← fetchTv
      let withIds ← data.results.mapM fun item => do
        let d ← tvDetails item.id
        pure (item, tvImdbId d)
      pure (withIds.map fun p => discoverByActorTvItem wpFetch p.2 p.1)

/-- `TmdbService.discoverByGenre`: the two-stage pipeline whose final
mapping sets no `watchProviders` and, for movies, keeps the raw
`release_date`. -/
def TmdbService.discoverByGenre (mediaType : MediaType)
    (fetchMovie : Except Unit TmdbMovieListResponse)
    (fetchTv : Except Unit TmdbTvListResponse)
    (movieDetails : Int → Except Unit TmdbMovieDetails)
    (tvDetails : Int → Except Unit TmdbTvDetails) :
    Except Unit (List TmdbItem) :=
  match mediaType with
  | .movie => do
      let data ← fetchMovie
      let withIds ← data.results.mapM fun item => do
        let d ← movieDetails item.id
        pure (item, d.imdb_id)
      pure (withIds.map fun p => discoverByGenreMovieItem p.2 p.1)
  | .tv => do
      let data ← fetchTv
      let withIds ← data.results.mapM fun item => do
        let d ← tvDetails item.id
        pure (item, tvImdbId d)
      pure (withIds.map fun p => discoverByGenreTvItem p.2 p.1)

/-- `TmdbService.getCollectionDetails`: the whole fetch is wrapped in
`try/catch`; any error yields `null` (`none`), success yields the mapped
collection. -/
def TmdbService.getCollectionDetails
    (fetch : Except Unit TmdbCollectionDetailsResponse) : Option TmdbCollection :=
  match fetch with
  | .ok data => some (collectionOf data)
  | .error _ => none

/-- Model of the `Promise.all` join: the per-record tasks complete in an
arbitrary order (the `events` list pairs each task's index with its
value, in completion order); the join then reads every slot by its
index, so the output order is the index order, not the completion
order. -/
def joinByIndex {α : Type} (n : Nat) (events : List (Nat × α)) : List (Option α) :=
  (List.range n).map fun i => events.lookup i

/-! ## Concrete fixtures used to exercise the definitions -/

/-- An OMDB not-found payload whose error text mentions "Series". -/
def seriesNotFoundResp : OmdbApiResponse :=
  { Response := "False", Error := some "Series not found!" }

/-- An OMDB not-found payload whose error text does not mention "Series". -/
def movieNotFoundResp : OmdbApiResponse :=
  { Response := "False", Error := some "Movie not found!" }

/-- A successful OMDB payload. -/
def shawshankResp : OmdbApiResponse :=
  { Title := some "The Shawshank Redemption", Response := "True" }

/-- An OMDB payload with every optional field absent. -/
def omdbAllAbsent : OmdbApiResponse :=
  { Response := "True" }

/-- A by-title oracle: the untyped probe is not-found with a "Series"
hint, every typed probe fails at the transport. -/
def fetchSeriesHint : OmdbRequest → Except Unit OmdbApiResponse := fun r =>
  match r.type with
  | none => Except.ok seriesNotFoundResp
  | some _ => Except.ok movieNotFoundResp

/-- A by-title oracle that always reports not-found. -/
def fetchNotFound : OmdbRequest → Except Unit OmdbApiResponse := fun _ =>
  Except.ok movieNotFoundResp

/-- A by-title oracle whose transport always fails. -/
def fetchTitleErr : OmdbRequest → Except Unit OmdbApiResponse := fun _ =>
  Except.error ()

/-- A by-id oracle whose transport always fails. -/
def fetchIdErr : String → Except Unit OmdbApiResponse := fun _ =>
  Except.error ()

/-- A by-id oracle that always succeeds with `shawshankResp`. -/
def fetchIdOk : String → Except Unit OmdbApiResponse := fun _ =>
  Except.ok shawshankResp

/-- A TMDB movie search result with every nullable field null. -/
def sampleMovieResult : TmdbMovieResult :=
  { id := 603, title := "The Matrix", overview := none, release_date := none,
    vote_average := none, poster_path := none, original_language := none }

/-- A second TMDB movie search result, distinct from `sampleMovieResult`. -/
def sampleMovieResult2 : TmdbMovieResult :=
  { id := 604, title := "The Matrix Reloaded", overview := some "Neo returns.",
    release_date := some "2003-05-15", vote_average := some 7,
    poster_path := some "/abc.jpg", original_language := some "en" }

/-- A TMDB TV search result with every nullable field null. -/
def sampleTvResult : TmdbTvResult :=
  { id := 1396, name := "Breaking Bad", overview := none, first_air_date := none,
    vote_average := none, poster_path := none, original_language := none }

/-- A TMDB trending entry (movie) with every nullable field null. -/
def sampleTrendingItem : TmdbTrendingItem :=
  { id := 603, overview := none, vote_average := none, poster_path := none,
    original_language := none, media_type := TrendingMediaType.movie }

/-- A popular/discover movie entry with every nullable field null. -/
def sampleMovieListResult : TmdbMovieListResult :=
  { id := 603, title := "The Matrix", overview := none, release_date := none,
    vote_average := none, poster_path := none, original_language := none }

/-- A popular/discover TV entry with every nullable field null. -/
def sampleTvListResult : TmdbTvListResult :=
  { id := 1396, name := "Breaking Bad", overview := none, first_air_date := none,
    vote_average := none, poster_path := none, original_language := none }

/-- A one-result movie search payload. -/
def sampleSearchResponse : TmdbMovieResponse :=
  { page := 1, results := [sampleMovieResult], total_results := 1, total_pages := 1 }

/-- A two-result movie search payload. -/
def sampleSearchResponse2 : TmdbMovieResponse :=
  { page := 1, results := [sampleMovieResult, sampleMovieResult2],
    total_results := 2, total_pages := 1 }

/-- A watch-providers oracle whose transport always fails. -/
def wpErr : MediaType → Int → Except Unit TmdbWatchProvidersResponse := fun _ _ =>
  Except.error ()

/-- A movie-details oracle that always succeeds with a fixed imdb id. -/
def detailsOk : Int → Except Unit TmdbMovieDetails := fun _ =>
  Except.ok { imdb_id := some "tt0133093" }

/-! ### Case lemmas for `OmdbService.getByTitle` -/

theorem getByTitle_cache_hit (f : OmdbRequest → Except Unit OmdbApiResponse)
    (c : OmdbCache) (t : String) (ty : Option OmdbKind) (item : OmdbItem)
    (hl : List.lookup (titleCacheKey t ty) c = some item) :
    OmdbService.getByTitle f c t ty = ⟨some item, c, []⟩ := by
  rw [OmdbService.getByTitle.eq_def]
  simp only [hl]

theorem getByTitle_fetch_error (f : OmdbRequest → Except Unit OmdbApiResponse)
    (c : OmdbCache) (t : String) (ty : Option OmdbKind)
    (hl : List.lookup (titleCacheKey t ty) c = none)
    (hf : f ⟨t, ty⟩ = Except.error ()) :
    OmdbService.getByTitle f c t ty = ⟨none, c, [⟨t, ty⟩]⟩ := by
  rw [OmdbService.getByTitle.eq_def]
  simp only [hl, hf]

theorem getByTitle_found (f : OmdbRequest → Except Unit OmdbApiResponse)
    (c : OmdbCache) (t : String) (ty : Option OmdbKind) (d : OmdbApiResponse)
    (hl : List.lookup (titleCacheKey t ty) c = none)
    (hf : f ⟨t, ty⟩ = Except.ok d)
    (hr : d.Response ≠ "False") :
    OmdbService.getByTitle f c t ty =
      ⟨some (OmdbService.normalize d),
       (titleCacheKey t ty, OmdbService.normalize d) :: c, [⟨t, ty⟩]⟩ := by
  rw [OmdbService.getByTitle.eq_def]
  simp only [hl, hf, hr, if_false]

theorem getByTitle_not_found_kind (f : OmdbRequest → Except Unit OmdbApiResponse)
    (c : OmdbCache) (t : String) (k : OmdbKind) (d : OmdbApiResponse)
    (hl : List.lookup (titleCacheKey t (some k)) c = none)
    (hf : f ⟨t, some k⟩ = Except.ok d)
    (hr : d.Response = "False") :
    OmdbService.getByTitle f c t (some k) = ⟨none, c, [⟨t, some k⟩]⟩ := by
  rw [OmdbService.getByTitle.eq_def]
  simp only [hl, hf, hr, if_pos]

theorem getByTitle_not_found_retry (f : OmdbRequest → Except Unit OmdbApiResponse)
    (c : OmdbCache) (t : String) (d : OmdbApiResponse)
    (hl : List.lookup (titleCacheKey t none) c = none)
    (hf : f ⟨t, none⟩ = Except.ok d)
    (hr : d.Response = "False") :
    OmdbService.getByTitle f c t none =
      ⟨(OmdbService.getByTitle f c t
          (some (if strIncludes (d.Error.getD "") "Series" then OmdbKind.series
                 else OmdbKind.movie))).result,
       (OmdbService.getByTitle f c t
          (some (if strIncludes (d.Error.getD "") "Series" then OmdbKind.series
                 else OmdbKind.movie))).cache,
       ⟨t, none⟩ :: (OmdbService.getByTitle f c t
          (some (if strIncludes (d.Error.getD "") "Series" then OmdbKind.series
                 else OmdbKind.movie))).reqs⟩ := by
  rw [OmdbService.getByTitle.eq_def]
  simp only [hl, hf, hr, if_pos]

theorem getByTitle_some_kind_shape (f : OmdbRequest → Except Unit OmdbApiResponse)
    (c : OmdbCache) (t : String) (k : OmdbKind) :
    (OmdbService.getByTitle f c t (some k)).reqs.length ≤ 1 ∧
    ((OmdbService.getByTitle f c t (some k)).result = none →
      (OmdbService.getByTitle f c t (some k)).cache = c ∧
      (OmdbService.getByTitle f c t (some k)).reqs ≠ []) := by
  rcases hl : List.lookup (titleCacheKey t (some k)) c with _ | item
  · rcases hf : f ⟨t, some k⟩ with e | d
    · cases e
      rw [getByTitle_fetch_error f c t (some k) hl hf]
      exact ⟨by simp, fun _ => ⟨rfl, by simp⟩⟩
    · by_cases hr : d.Response = "False"
      · rw [getByTitle_not_found_kind f c t k d hl hf hr]
        exact ⟨by simp, fun _ => ⟨rfl, by simp⟩⟩
      · rw [getByTitle_found f c t (some k) d hl hf hr]
        exact ⟨by simp, fun h => by simp at h⟩
  · rw [getByTitle_cache_hit f c t (some k) item hl]
    exact ⟨by simp, fun h => by simp at h⟩

theorem getByTitle_none_failure_cache (f : OmdbRequest → Except Unit OmdbApiResponse)
    (c : OmdbCache) (t : String) (ty : Option OmdbKind)
    (h : (OmdbService.getByTitle f c t ty).result = none) :
    (OmdbService.getByTitle f c t ty).cache = c ∧
    (OmdbService.getByTitle f c t ty).reqs ≠ [] := by
  rcases ty with _ | k
  · rcases hl : List.lookup (titleCacheKey t none) c with _ | item
    · rcases hf : f ⟨t, none⟩ with e | d
      · cases e
        rw [getByTitle_fetch_error f c t none hl hf]
        exact ⟨rfl, by simp⟩
      · by_cases hr : d.Response = "False"
        · rw [getByTitle_not_found_retry f c t d hl hf hr] at h ⊢
          refine ⟨?_, by simp⟩
          simp only at h
          exact ((getByTitle_some_kind_shape f c t _).2 h).1
        · rw [getByTitle_found f c t none d hl hf hr] at h
          simp at h
    · rw [getByTitle_cache_hit f c t none item hl] at h
      simp at h
  · exact (getByTitle_some_kind_shape f c t k).2 h

/-! ### Case lemmas for `OmdbService.getByImdbId` -/

theorem getByImdbId_cache_hit (f : String → Except Unit OmdbApiResponse)
    (c : OmdbCache) (i : String) (item : OmdbItem)
    (hl : List.lookup (idCacheKey i) c = some item) :
    OmdbService.getByImdbId f c i = ⟨some item, c, []⟩ := by
  rw [OmdbService.getByImdbId]
  simp only [hl]

theorem getByImdbId_fetch_error (f : String → Except Unit OmdbApiResponse)
    (c : OmdbCache) (i : String)
    (hl : List.lookup (idCacheKey i) c = none)
    (hf : f i = Except.error ()) :
    OmdbService.getByImdbId f c i = ⟨none, c, [i]⟩ := by
  rw [OmdbService.getByImdbId]
  simp only [hl, hf]

theorem getByImdbId_not_found (f : String → Except Unit OmdbApiResponse)
    (c : OmdbCache) (i : String) (d : OmdbApiResponse)
    (hl : List.lookup (idCacheKey i) c = none)
    (hf : f i = Except.ok d)
    (hr : d.Response = "False") :
    OmdbService.getByImdbId f c i = ⟨none, c, [i]⟩ := by
  rw [OmdbService.getByImdbId]
  simp only [hl, hf, hr, if_true]

theorem getByImdbId_found (f : String → Except Unit OmdbApiResponse)
    (c : OmdbCache) (i : String) (d : OmdbApiResponse)
    (hl : List.lookup (idCacheKey i) c = none)
    (hf : f i = Except.ok d)
    (hr : d.Response ≠ "False") :
    OmdbService.getByImdbId f c i =
      ⟨some (OmdbService.normalize d),
       (idCacheKey i, OmdbService.normalize d) :: c, [i]⟩ := by
  rw [OmdbService.getByImdbId]
  simp only [hl, hf, hr, if_false]

/-! ## Claim theorems: OMDB reconciler -/

/-- C1 counterexample: with a not-found response whose error text
mentions "Series" (`seriesNotFoundResp` via `fetchSeriesHint`), the
untyped lookup issues exactly two requests and the retry carries
`kind = series`, not `kind = movie` as the claim states. -/
theorem getByTitle_series_hint_retries_as_series :
    ((OmdbService.getByTitle fetchSeriesHint [] "dark" none).reqs.map OmdbRequest.type)
      = [none, some OmdbKind.series] ∧
    some OmdbKind.series ≠ some OmdbKind.movie := by
  have hif : (if strIncludes (seriesNotFoundResp.Error.getD "") "Series" then OmdbKind.series
      else OmdbKind.movie) = OmdbKind.series := by decide
  have h2 := getByTitle_not_found_retry fetchSeriesHint [] "dark" seriesNotFoundResp rfl rfl rfl
  rw [hif] at h2
  have h1 : OmdbService.getByTitle fetchSeriesHint [] "dark" (some OmdbKind.series)
      = ⟨none, [], [⟨"dark", some OmdbKind.series⟩]⟩ :=
    getByTitle_not_found_kind fetchSeriesHint [] "dark" OmdbKind.series movieNotFoundResp
      rfl rfl rfl
  rw [h1] at h2
  rw [h2]
  exact ⟨rfl, by decide⟩

/-- C1 (amended): when the untyped lookup misses the cache and the
provider reports not-found with an error text mentioning "Series", the
lookup is retried exactly once with `kind = series` (not `movie`), the
retry's outcome is returned unchanged, and the retry itself issues at
most one request. -/
theorem getByTitle_series_hint_retry :
    ∀ (f : OmdbRequest → Except Unit OmdbApiResponse) (c : OmdbCache) (t : String)
      (d : OmdbApiResponse),
      List.lookup (titleCacheKey t none) c = none →
      f ⟨t, none⟩ = Except.ok d →
      d.Response = "False" →
      strIncludes (d.Error.getD "") "Series" = true →
      OmdbService.getByTitle f c t none =
        ⟨(OmdbService.getByTitle f c t (some OmdbKind.series)).result,
         (OmdbService.getByTitle f c t (some OmdbKind.series)).cache,
         ⟨t, none⟩ :: (OmdbService.getByTitle f c t (some OmdbKind.series)).reqs⟩ ∧
      (OmdbService.getByTitle f c t (some OmdbKind.series)).reqs.length ≤ 1 := by
  intro f c t d hl hf hr hs
  have h2 := getByTitle_not_found_retry f c t d hl hf hr
  rw [hs] at h2
  simp only [if_true] at h2
  exact ⟨h2, (getByTitle_some_kind_shape f c t OmdbKind.series).1⟩

/-- Witness for the amended C1 at a concrete oracle. -/
theorem getByTitle_series_hint_retry_witness :
    OmdbService.getByTitle fetchSeriesHint [] "dark" none
      = ⟨none, [], [⟨"dark", none⟩, ⟨"dark", some OmdbKind.series⟩]⟩ := by
  have h := getByTitle_series_hint_retry fetchSeriesHint [] "dark" seriesNotFoundResp
    rfl rfl rfl (by decide)
  have h1 : OmdbService.getByTitle fetchSeriesHint [] "dark" (some OmdbKind.series)
      = ⟨none, [], [⟨"dark", some OmdbKind.series⟩]⟩ :=
    getByTitle_not_found_kind fetchSeriesHint [] "dark" OmdbKind.series movieNotFoundResp
      rfl rfl rfl
  rw [h.1, h1]

/-- C3: if a by-id lookup succeeds, a second sequential call on the
resulting cache hits the memo, issues no network request, returns the
identical item, and the two calls issue at most one request in total. -/
theorem getByImdbId_memo :
    ∀ (f : String → Except Unit OmdbApiResponse) (c : OmdbCache) (i : String)
      (item : OmdbItem),
      (OmdbService.getByImdbId f c i).result = some item →
      (OmdbService.getByImdbId f (OmdbService.getByImdbId f c i).cache i).result = some item ∧
      (OmdbService.getByImdbId f (OmdbService.getByImdbId f c i).cache i).reqs = [] ∧
      (OmdbService.getByImdbId f c i).reqs.length
        + (OmdbService.getByImdbId f (OmdbService.getByImdbId f c i).cache i).reqs.length
        ≤ 1 := by
  intro f c i item h
  rcases hl : List.lookup (idCacheKey i) c with _ | it
  · rcases hf : f i with e | d
    · cases e
      rw [getByImdbId_fetch_error f c i hl hf] at h
      simp at h
    · by_cases hr : d.Response = "False"
      · rw [getByImdbId_not_found f c i d hl hf hr] at h
        simp at h
      · rw [getByImdbId_found f c i d hl hf hr] at h ⊢
        simp only at h ⊢
        have hhit : List.lookup (idCacheKey i)
            ((idCacheKey i, OmdbService.normalize d) :: c) = some (OmdbService.normalize d) := by
          simp [List.lookup_cons]
        rw [getByImdbId_cache_hit f _ i (OmdbService.normalize d) hhit]
        exact ⟨h, rfl, by simp⟩
  · rw [getByImdbId_cache_hit f c i it hl] at h ⊢
    simp only at h ⊢
    rw [getByImdbId_cache_hit f c i it hl]
    exact ⟨h, rfl, by simp⟩

/-- Witness for C3 at a concrete oracle and id. -/
theorem getByImdbId_memo_witness :
    (OmdbService.getByImdbId fetchIdOk
        (OmdbService.getByImdbId fetchIdOk [] "tt0111161").cache "tt0111161").result
      = some (OmdbService.normalize shawshankResp) ∧
    (OmdbService.getByImdbId fetchIdOk
        (OmdbService.getByImdbId fetchIdOk [] "tt0111161").cache "tt0111161").reqs = [] := by
  have h := getByImdbId_memo fetchIdOk [] "tt0111161" (OmdbService.normalize shawshankResp)
    (by rfl)
  exact ⟨h.1, h.2.1⟩

/-- C5: a by-title lookup issues at most two requests in total; a lookup
that carries an explicit kind issues at most one request; and an
explicit-kind lookup that misses the cache and is answered not-found
returns the `null` sentinel with exactly that single request, issuing no
further lookup. -/
theorem getByTitle_retry_bounded :
    ∀ (f : OmdbRequest → Except Unit OmdbApiResponse) (c : OmdbCache) (t : String)
      (ty : Option OmdbKind),
      (OmdbService.getByTitle f c t ty).reqs.length ≤ 2 ∧
      (∀ k : OmdbKind, (OmdbService.getByTitle f c t (some k)).reqs.length ≤ 1) ∧
      (∀ (k : OmdbKind) (d : OmdbApiResponse),
        List.lookup (titleCacheKey t (some k)) c = none →
        f ⟨t, some k⟩ = Except.ok d → d.Response = "False" →
        OmdbService.getByTitle f c t (some k) = ⟨none, c, [⟨t, some k⟩]⟩) := by
  intro f c t ty
  refine ⟨?_, fun k => (getByTitle_some_kind_shape f c t k).1,
    fun k d hl hf hr => getByTitle_not_found_kind f c t k d hl hf hr⟩
  rcases ty with _ | k
  · rcases hl : List.lookup (titleCacheKey t none) c with _ | item
    · rcases hf : f ⟨t, none⟩ with e | d
      · cases e
        rw [getByTitle_fetch_error f c t none hl hf]
        simp
      · by_cases hr : d.Response = "False"
        · rw [getByTitle_not_found_retry f c t d hl hf hr]
          have hb := (getByTitle_some_kind_shape f c t
            (if strIncludes (d.Error.getD "") "Series" then OmdbKind.series
             else OmdbKind.movie)).1
          simp only [List.length_cons]
          omega
        · rw [getByTitle_found f c t none d hl hf hr]
          simp
    · rw [getByTitle_cache_hit f c t none item hl]
      simp
  · exact le_trans (getByTitle_some_kind_shape f c t k).1 (by norm_num)

/-- Witness for C5 at a concrete always-not-found oracle. -/
theorem getByTitle_retry_bounded_witness :
    (OmdbService.getByTitle fetchNotFound [] "x" none).reqs.length ≤ 2 ∧
    (OmdbService.getByTitle fetchNotFound [] "x" (some OmdbKind.movie)).reqs.length ≤ 1 ∧
    OmdbService.getByTitle fetchNotFound [] "x" (some OmdbKind.movie)
      = ⟨none, [], [⟨"x", some OmdbKind.movie⟩]⟩ := by
  have h := getByTitle_retry_bounded fetchNotFound [] "x" none
  exact ⟨h.1, h.2.1 OmdbKind.movie,
    h.2.2 OmdbKind.movie movieNotFoundResp rfl rfl rfl⟩

/-- C10: whenever a by-title or by-id lookup ends in the `null`
sentinel, the memo is unchanged, at least one network request was
issued, and an immediately repeated lookup behaves identically (so a
not-found title or id is re-fetched every time). -/
theorem memo_only_on_success :
    ∀ (fT : OmdbRequest → Except Unit OmdbApiResponse)
      (fI : String → Except Unit OmdbApiResponse)
      (c : OmdbCache) (t : String) (ty : Option OmdbKind) (i : String),
      ((OmdbService.getByTitle fT c t ty).result = none →
        (OmdbService.getByTitle fT c t ty).cache = c ∧
        (OmdbService.getByTitle fT c t ty).reqs ≠ [] ∧
        OmdbService.getByTitle fT (OmdbService.getByTitle fT c t ty).cache t ty
          = OmdbService.getByTitle fT c t ty) ∧
      ((OmdbService.getByImdbId fI c i).result = none →
        (OmdbService.getByImdbId fI c i).cache = c ∧
        (OmdbService.getByImdbId fI c i).reqs ≠ [] ∧
        OmdbService.getByImdbId fI (OmdbService.getByImdbId fI c i).cache i
          = OmdbService.getByImdbId fI c i) := by
  intro fT fI c t ty i
  constructor
  · intro h
    obtain ⟨hc, hr⟩ := getByTitle_none_failure_cache fT c t ty h
    exact ⟨hc, hr, by rw [hc]⟩
  · intro h
    rcases hl : List.lookup (idCacheKey i) c with _ | it
    · rcases hf : fI i with e | d
      · cases e
        rw [getByImdbId_fetch_error fI c i hl hf]
        exact ⟨rfl, by simp, by rw [getByImdbId_fetch_error fI c i hl hf]⟩
      · by_cases hrr : d.Response = "False"
        · rw [getByImdbId_not_found fI c i d hl hf hrr]
          exact ⟨rfl, by simp, by rw [getByImdbId_not_found fI c i d hl hf hrr]⟩
        · rw [getByImdbId_found fI c i d hl hf hrr] at h
          simp at h
    · rw [getByImdbId_cache_hit fI c i it hl] at h
      simp at h

/-- Witness for C10 at concrete failing oracles. -/
theorem memo_only_on_success_witness :
    (OmdbService.getByTitle fetchTitleErr [] "x" none).cache = [] ∧
    (OmdbService.getByTitle fetchTitleErr [] "x" none).reqs ≠ [] ∧
    (OmdbService.getByImdbId fetchIdErr [] "tt1").cache = [] ∧
    (OmdbService.getByImdbId fetchIdErr [] "tt1").reqs ≠ [] := by
  have h := memo_only_on_success fetchTitleErr fetchIdErr [] "x" none "tt1"
  have h1 := h.1 (by rw [getByTitle_fetch_error fetchTitleErr [] "x" none rfl rfl])
  have h2 := h.2 (by rfl)
  exact ⟨h1.1, h1.2.1, h2.1, h2.2.1⟩

/-! ## Claim theorems: normalization defaults -/

/-- C6: normalization is a total function (it cannot raise, as its Lean
type shows), and every absent optional/nullable field is replaced by its
documented default: missing `Plot` → the fixed no-plot sentinel, missing
`imdbRating` → "N/A", missing `Language`/`Title` → "Unknown", missing
`Poster` → "", and on the TMDB side missing `overview` → the fixed
no-description sentinel, missing `vote_average` → 0, missing
`original_language` → "Unknown". -/
theorem normalize_total_defaults :
    ∀ (d : OmdbApiResponse)
      (wp : MediaType → Int → Except Unit TmdbWatchProvidersResponse)
      (m : TmdbMovieResult),
      (d.Plot = none → (OmdbService.normalize d).plot = "No plot available.") ∧
      (d.imdbRating = none → (OmdbService.normalize d).rating = "N/A") ∧
      (d.imdbVotes = none → (OmdbService.normalize d).votes = "N/A") ∧
      (d.Language = none → (OmdbService.normalize d).language = "Unknown") ∧
      (d.Title = none → (OmdbService.normalize d).title = "Unknown") ∧
      (d.Poster = none → (OmdbService.normalize d).posterUrl = "") ∧
      (m.overview = none → (movieTitleItem wp m).description = "No description available.") ∧
      (m.vote_average = none → (movieTitleItem wp m).rating = 0) ∧
      (m.original_language = none → (movieTitleItem wp m).language = "Unknown") := by
  intro d wp m
  refine ⟨fun h => ?_, fun h => ?_, fun h => ?_, fun h => ?_, fun h => ?_, fun h => ?_,
    fun h => ?_, fun h => ?_, fun h => ?_⟩ <;>
    simp [OmdbService.normalize, movieTitleItem, h]

/-- Witness for C6: the all-absent payloads receive every default. -/
theorem normalize_total_defaults_witness :
    (OmdbService.normalize omdbAllAbsent).plot = "No plot available." ∧
    (OmdbService.normalize omdbAllAbsent).rating = "N/A" ∧
    (OmdbService.normalize omdbAllAbsent).language = "Unknown" ∧
    (OmdbService.normalize omdbAllAbsent).posterUrl = "" ∧
    (movieTitleItem wpErr sampleMovieResult).description = "No description available." ∧
    (movieTitleItem wpErr sampleMovieResult).rating = 0 ∧
    (movieTitleItem wpErr sampleMovieResult).language = "Unknown" := by
  have h := normalize_total_defaults omdbAllAbsent wpErr sampleMovieResult
  exact ⟨h.1 rfl, h.2.1 rfl, h.2.2.2.1 rfl, h.2.2.2.2.2.1 rfl,
    h.2.2.2.2.2.2.1 rfl, h.2.2.2.2.2.2.2.1 rfl, h.2.2.2.2.2.2.2.2 rfl⟩

/-- C7: for every normalized TMDB item, an empty or absent `poster_path`
yields exactly `posterUrl = ""`, and a non-empty path yields the fixed
image base concatenated with the path; every item-producing mapping
routes `poster_path` through `imageUrlOf`. -/
theorem posterUrl_policy :
    ∀ (p : Option String) (s : String)
      (wp : MediaType → Int → Except Unit TmdbWatchProvidersResponse)
      (m : TmdbMovieResult) (t : TmdbTvResult) (tr : TmdbTrendingItem)
      (ml : TmdbMovieListResult) (tl : TmdbTvListResult) (imdb : Option String),
      ((p = none ∨ p = some "") → imageUrlOf p = "") ∧
      (s ≠ "" → imageUrlOf (some s) = "https://image.tmdb.org/t/p/w500" ++ s) ∧
      (movieTitleItem wp m).posterUrl = imageUrlOf m.poster_path ∧
      (tvTitleItem wp t).posterUrl = imageUrlOf t.poster_path ∧
      (trendingItem wp imdb tr).posterUrl = imageUrlOf tr.poster_path ∧
      (popularMovieItem wp imdb ml).posterUrl = imageUrlOf ml.poster_path ∧
      (popularTvItem wp imdb tl).posterUrl = imageUrlOf tl.poster_path ∧
      (discoverByActorMovieItem wp imdb ml).posterUrl = imageUrlOf ml.poster_path ∧
      (discoverByActorTvItem wp imdb tl).posterUrl = imageUrlOf tl.poster_path ∧
      (discoverByGenreMovieItem imdb ml).posterUrl = imageUrlOf ml.poster_path ∧
      (discoverByGenreTvItem imdb tl).posterUrl = imageUrlOf tl.poster_path := by
  intro p s wp m t tr ml tl imdb
  refine ⟨?_, ?_, rfl, rfl, rfl, rfl, rfl, rfl, rfl, rfl, rfl⟩
  · rintro (rfl | rfl) <;> rfl
  · intro hs
    simp [imageUrlOf, hs]

/-- Witness for C7 on concrete paths. -/
theorem posterUrl_policy_witness :
    imageUrlOf (some "") = "" ∧ imageUrlOf none = "" ∧
    imageUrlOf (some "/abc.jpg") = "https://image.tmdb.org/t/p/w500/abc.jpg" := by
  have h := posterUrl_policy (some "") "/abc.jpg" wpErr sampleMovieResult sampleTvResult
    sampleTrendingItem sampleMovieListResult sampleTvListResult none
  have h' := posterUrl_policy none "/abc.jpg" wpErr sampleMovieResult sampleTvResult
    sampleTrendingItem sampleMovieListResult sampleTvListResult none
  exact ⟨h.1 (Or.inr rfl), h'.1 (Or.inl rfl), h.2.1 (by decide)⟩

/-- C8: `getCollectionDetails` converts any fetch failure into `null`
(`none`) rather than propagating it; its Lean type (a total function
into `Option`) shows no error is ever raised, and a successful fetch is
mapped through `collectionOf`. -/
theorem getCollectionDetails_soft_null :
    ∀ (fetch : Except Unit TmdbCollectionDetailsResponse),
      (∀ e : Unit, fetch = Except.error e →
        TmdbService.getCollectionDetails fetch = none) ∧
      (∀ d, fetch = Except.ok d →
        TmdbService.getCollectionDetails fetch = some (collectionOf d)) := by
  intro fetch
  constructor
  · rintro e rfl
    rfl
  · rintro d rfl
    rfl

/-- Witness for C8: a 404-style failing fetch yields `null`. -/
theorem getCollectionDetails_soft_null_witness :
    TmdbService.getCollectionDetails (Except.error ()) = none :=
  (getCollectionDetails_soft_null (Except.error ())).1 () rfl

/-! ## Claim theorems: releaseDate defaulting (C2) -/

/-- C2 counterexample: `discoverByGenre` for movies does NOT substitute
"Unknown" — a null `release_date` is passed through as null.  Run at a
concrete one-result discover payload whose `release_date` is null. -/
theorem discoverByGenre_movie_releaseDate_not_unknown :
    TmdbService.discoverByGenre MediaType.movie
        (Except.ok { page := 1, results := [sampleMovieListResult],
                     total_results := 1, total_pages := 1 })
        (Except.error ()) detailsOk (fun _ => Except.error ())
      = Except.ok [discoverByGenreMovieItem (some "tt0133093") sampleMovieListResult] ∧
    (discoverByGenreMovieItem (some "tt0133093") sampleMovieListResult).releaseDate = none ∧
    (none : Option String) ≠ some "Unknown" := by
  refine ⟨rfl, rfl, by decide⟩

/-- C2 (amended): every item-producing operation substitutes "Unknown"
for an absent provider date — search by title (movie and TV), trending,
popular (both kinds), discover-by-actor (both kinds) and
discover-by-genre for TV — EXCEPT discover-by-genre for movies, which
passes the raw (possibly null) `release_date` through unchanged. -/
theorem releaseDate_default_policy :
    ∀ (wp : MediaType → Int → Except Unit TmdbWatchProvidersResponse)
      (imdb : Option String) (m : TmdbMovieResult) (t : TmdbTvResult)
      (tr : TmdbTrendingItem) (ml : TmdbMovieListResult) (tl : TmdbTvListResult),
      (m.release_date = none → (movieTitleItem wp m).releaseDate = some "Unknown") ∧
      (t.first_air_date = none → (tvTitleItem wp t).releaseDate = some "Unknown") ∧
      (tr.release_date = none → tr.first_air_date = none →
        (trendingItem wp imdb tr).releaseDate = some "Unknown") ∧
      (ml.release_date = none → (popularMovieItem wp imdb ml).releaseDate = some "Unknown") ∧
      (tl.first_air_date = none → (popularTvItem wp imdb tl).releaseDate = some "Unknown") ∧
      (ml.release_date = none →
        (discoverByActorMovieItem wp imdb ml).releaseDate = some "Unknown") ∧
      (tl.first_air_date = none →
        (discoverByActorTvItem wp imdb tl).releaseDate = some "Unknown") ∧
      (tl.first_air_date = none →
        (discoverByGenreTvItem imdb tl).releaseDate = some "Unknown") ∧
      (discoverByGenreMovieItem imdb ml).releaseDate = ml.release_date := by
  intro wp imdb m t tr ml tl
  refine ⟨fun h => by simp [movieTitleItem, h],
    fun h => by simp [tvTitleItem, h],
    fun h h' => by simp [trendingItem, h, h'],
    fun h => by simp [popularMovieItem, h],
    fun h => by simp [popularTvItem, h],
    fun h => by simp [discoverByActorMovieItem, h],
    fun h => by simp [discoverByActorTvItem, h],
    fun h => by simp [discoverByGenreTvItem, h],
    rfl⟩

/-- Witness for the amended C2 on the all-null fixtures. -/
theorem releaseDate_default_policy_witness :
    (movieTitleItem wpErr sampleMovieResult).releaseDate = some "Unknown" ∧
    (tvTitleItem wpErr sampleTvResult).releaseDate = some "Unknown" ∧
    (trendingItem wpErr none sampleTrendingItem).releaseDate = some "Unknown" ∧
    (popularMovieItem wpErr none sampleMovieListResult).releaseDate = some "Unknown" ∧
    (popularTvItem wpErr none sampleTvListResult).releaseDate = some "Unknown" ∧
    (discoverByActorMovieItem wpErr none sampleMovieListResult).releaseDate = some "Unknown" ∧
    (discoverByActorTvItem wpErr none sampleTvListResult).releaseDate = some "Unknown" ∧
    (discoverByGenreTvItem none sampleTvListResult).releaseDate = some "Unknown" ∧
    (discoverByGenreMovieItem none sampleMovieListResult).releaseDate = none := by
  have h := releaseDate_default_policy wpErr none sampleMovieResult sampleTvResult
    sampleTrendingItem sampleMovieListResult sampleTvListResult
  exact ⟨h.1 rfl, h.2.1 rfl, h.2.2.1 rfl rfl, h.2.2.2.1 rfl, h.2.2.2.2.1 rfl,
    h.2.2.2.2.2.1 rfl, h.2.2.2.2.2.2.1 rfl, h.2.2.2.2.2.2.2.1 rfl,
    h.2.2.2.2.2.2.2.2⟩

/-! ## Helper lemmas for the enrichment batch (C4, C9) -/

theorem mapM_ok_of_forall {α β : Type} (f : α → Except Unit β) (g : α → β) :
    ∀ l : List α, (∀ x ∈ l, f x = Except.ok (g x)) → l.mapM f = Except.ok (l.map g) := by
  intro l
  induction l with
  | nil => intro _; rfl
  | cons a t ih =>
    intro h
    rw [List.mapM_cons, h a (List.mem_cons_self a t),
      ih fun x hx => h x (List.mem_cons_of_mem a hx)]
    rfl

theorem lookup_eq_of_perm {α : Type} {l₁ l₂ : List (Nat × α)} (p : l₁.Perm l₂) :
    (l₁.map Prod.fst).Nodup → ∀ k : Nat, List.lookup k l₂ = List.lookup k l₁ := by
  induction p with
  | nil => intro _ _; rfl
  | cons x p ih =>
    intro nd k
    obtain ⟨kx, vx⟩ := x
    simp only [List.map_cons, List.nodup_cons] at nd
    simp only [List.lookup_cons]
    cases hbeq : k == kx
    · exact ih nd.2 k
    · rfl
  | swap x y l =>
    intro nd k
    obtain ⟨kx, vx⟩ := x
    obtain ⟨ky, vy⟩ := y
    simp only [List.map_cons, List.nodup_cons, List.mem_cons] at nd
    have hne : ky ≠ kx := fun hh => nd.1 (Or.inl hh)
    simp only [List.lookup_cons]
    cases h1 : k == kx <;> cases h2 : k == ky
    · rfl
    · rfl
    · rfl
    · exact absurd ((eq_of_beq h2).symm.trans (eq_of_beq h1)) hne
  | trans p₁ p₂ ih₁ ih₂ =>
    intro nd k
    have nd₂ := (p₁.map Prod.fst).nodup nd
    rw [ih₂ nd₂ k, ih₁ nd k]

theorem lookup_enumFrom {α : Type} (l : List α) :
    ∀ n k : Nat, List.lookup (n + k) (List.enumFrom n l) = l[k]? := by
  induction l with
  | nil => intro n k; rfl
  | cons a t ih =>
    intro n k
    rw [List.enumFrom_cons]
    cases k with
    | zero => simp [List.lookup_cons]
    | succ k =>
      have hb : ((n + (k + 1) : Nat) == n) = false := beq_eq_false_iff_ne.mpr (by omega)
      have hs : n + (k + 1) = (n + 1) + k := by omega
      simp only [List.lookup_cons, hb, List.getElem?_cons_succ]
      rw [hs, ih]

theorem lookup_enum {α : Type} (l : List α) (k : Nat) :
    List.lookup k l.enum = l[k]? := by
  have h := lookup_enumFrom l 0 k
  simpa [List.enum] using h

theorem joinByIndex_of_perm {α : Type} (tasks : List α) (events : List (Nat × α))
    (hp : events.Perm tasks.enum) :
    joinByIndex tasks.length events = tasks.map some := by
  have nd : (tasks.enum.map Prod.fst).Nodup := by
    rw [List.enum_map_fst]
    exact List.nodup_range _
  have hl : ∀ k, List.lookup k events = List.lookup k tasks.enum :=
    fun k => lookup_eq_of_perm hp.symm nd k
  unfold joinByIndex
  apply List.ext_getElem
  · simp
  · intro i h1 h2
    have h2' : i < tasks.length := by simpa using h2
    simp only [List.getElem_map, List.getElem_range]
    rw [hl, lookup_enum, List.getElem?_eq_getElem h2']

/-! ## Claim theorems: enrichment batch -/

/-- C4: when the primary search succeeds and every detail fetch
succeeds, the whole enrichment batch succeeds regardless of
watch-provider failures: the result is the per-record map (one output
item per base record, in base order, each depending only on its own
record), and an item whose availability fetch fails is still produced
with `watchProviders = none`; the failure is never propagated. -/
theorem getMovieByTitle_partial_availability :
    ∀ (details : Int → Except Unit TmdbMovieDetails)
      (wp : MediaType → Int → Except Unit TmdbWatchProvidersResponse)
      (data : TmdbMovieResponse) (detf : TmdbMovieResult → TmdbMovieDetails),
      (∀ m ∈ data.results, details m.id = Except.ok (detf m)) →
      TmdbService.getMovieByTitle (Except.ok data) details wp =
        Except.ok (data.results.map fun m =>
          movieTitleItem wp { m with imdb_id := (detf m).imdb_id }) ∧
      (∀ m : TmdbMovieResult, wp MediaType.movie m.id = Except.error () →
        (movieTitleItem wp m).watchProviders = none) ∧
      (data.results.map fun m =>
          movieTitleItem wp { m with imdb_id := (detf m).imdb_id }).length
        = data.results.length := by
  intro details wp data detf h
  refine ⟨?_, ?_, by simp⟩
  · have h1 : (data.results.mapM fun movie => do
        let movieDetails ← details movie.id
        pure { movie with imdb_id := movieDetails.imdb_id })
        = Except.ok (data.results.map fun m => { m with imdb_id := (detf m).imdb_id }) := by
      apply mapM_ok_of_forall
      intro x hx
      rw [h x hx]
      rfl
    unfold TmdbService.getMovieByTitle
    rw [show ((Except.ok data : Except Unit TmdbMovieResponse) >>= fun d =>
          (d.results.mapM fun movie => do
            let movieDetails ← details movie.id
            pure { movie with imdb_id := movieDetails.imdb_id }) >>= fun l =>
          pure (l.map (movieTitleItem wp)))
        = ((data.results.mapM fun movie => do
            let movieDetails ← details movie.id
            pure { movie with imdb_id := movieDetails.imdb_id }) >>= fun l =>
          pure (l.map (movieTitleItem wp))) from rfl, h1]
    simp [List.map_map, Function.comp]
  · intro m hm
    simp [movieTitleItem, TmdbService.getWatchProviders, hm]

/-- Witness for C4: one-record batch whose availability fetch fails
still yields that record with `watchProviders = none`. -/
theorem getMovieByTitle_partial_availability_witness :
    TmdbService.getMovieByTitle (Except.ok sampleSearchResponse) detailsOk wpErr
      = Except.ok [movieTitleItem wpErr
          { sampleMovieResult with imdb_id := some "tt0133093" }] ∧
    (movieTitleItem wpErr sampleMovieResult).watchProviders = none := by
  have h := getMovieByTitle_partial_availability detailsOk wpErr sampleSearchResponse
    (fun _ => { imdb_id := some "tt0133093" }) (fun _ _ => rfl)
  exact ⟨h.1, h.2.1 sampleMovieResult rfl⟩

/-- C9: the `Promise.all` join over the enrichment of `N` base records
returns exactly `N` items in base-record order, for EVERY completion
order (permutation) of the per-record tasks. -/
theorem enrichment_join_order_independent :
    ∀ (wp : MediaType → Int → Except Unit TmdbWatchProvidersResponse)
      (base : List TmdbMovieResult) (events : List (Nat × TmdbItem)),
      events.Perm (base.map (movieTitleItem wp)).enum →
      joinByIndex base.length events = (base.map (movieTitleItem wp)).map some ∧
      ((base.map (movieTitleItem wp)).map some).length = base.length := by
  intro wp base events hp
  have hlen : (base.map (movieTitleItem wp)).length = base.length := by simp
  constructor
  · rw [← hlen]
    exact joinByIndex_of_perm _ events hp
  · simp

/-- Witness for C9: two records whose tasks complete in reversed order
still join to the base order. -/
theorem enrichment_join_order_independent_witness :
    joinByIndex 2 [(1, movieTitleItem wpErr sampleMovieResult2),
                   (0, movieTitleItem wpErr sampleMovieResult)]
      = [some (movieTitleItem wpErr sampleMovieResult),
         some (movieTitleItem wpErr sampleMovieResult2)] := by
  have h := enrichment_join_order_independent wpErr [sampleMovieResult, sampleMovieResult2]
    [(1, movieTitleItem wpErr sampleMovieResult2), (0, movieTitleItem wpErr sampleMovieResult)]
    (by decide)
  exact h.1
